import Mathlib

/-!
# Verification of the paperless-mcp-go tool registration and dispatch layer

This file gives a shallow embedding, in Lean 4, of the tool registry,
dispatcher, handlers, auth middleware and error helpers of the
`paperless-mcp-go` repository, and proves (or refutes) the frozen claims
about them.

Modelling conventions:
* Go `interface{}` values decoded from JSON are modelled by the inductive
  `JValue`.  JSON numbers arrive in Go as `float64`; every number the
  handlers inspect is used as an integer (`int(x)` after a `float64`
  assertion), so numbers are modelled as `Int`.
* The untyped argument bag `map[string]interface{}` is an association
  list `Args`; `args["k"].(T)` with the comma-ok idiom is modelled by the
  `Args.getNum?` / `getStr?` / `getBool?` / `getArr?` accessors, which
  succeed exactly when the key is present with the asserted type.
* Go errors are the inductive `GoError`: `api` is `*paperless.Error`,
  `errorf` a plain `fmt.Errorf`, and `wrapped` a `fmt.Errorf` with `%w`.
* Each handler's effectful step (the single call it makes on the backing
  `paperless.Client`) is reified as a `ClientCall` value; a handler that
  fails validation returns `Except.error` and therefore produces no
  `ClientCall` at all, which is exactly the "zero calls to the backing
  API" observable of the source.
-/

/-- JSON values as decoded into Go `interface{}`.  Numbers are modelled as
`Int` (Go decodes JSON numbers as `float64`; all handler uses coerce them
with `int(·)`). -/
inductive JValue where
  | null : JValue
  | bool (b : Bool) : JValue
  | num (n : Int) : JValue
  | str (s : String) : JValue
  | arr (xs : List JValue) : JValue

/-- The untyped argument bag `map[string]interface{}`, as an association
list from keys to JSON values. -/
abbrev Args := List (String × JValue)

/-- Go `v, ok := args[k]`: key lookup in the argument bag. -/
def Args.get? (a : Args) (k : String) : Option JValue := a.lookup k

/-- Go `v, ok := args[k].(float64)` followed by `int(v)`: succeeds exactly
when the key is present and holds a number. -/
def Args.getNum? (a : Args) (k : String) : Option Int :=
  match a.lookup k with
  | some (JValue.num n) => some n
  | _ => none

/-- Go `v, ok := args[k].(string)`. -/
def Args.getStr? (a : Args) (k : String) : Option String :=
  match a.lookup k with
  | some (JValue.str s) => some s
  | _ => none

/-- Go `v, ok := args[k].(bool)`. -/
def Args.getBool? (a : Args) (k : String) : Option Bool :=
  match a.lookup k with
  | some (JValue.bool b) => some b
  | _ => none

/-- Go `v, ok := args[k].([]interface{})`. -/
def Args.getArr? (a : Args) (k : String) : Option (List JValue) :=
  match a.lookup k with
  | some (JValue.arr xs) => some xs
  | _ => none

/-- Go `error` values relevant to this layer.  `api` is the typed
`*paperless.Error` of `errors.go` (status code, message, details);
`errorf` is a plain `fmt.Errorf`; `wrapped` is `fmt.Errorf` with a `%w`
verb, retaining the wrapped cause. -/
inductive GoError where
  | api (statusCode : Int) (message : String) (details : List (String × JValue)) : GoError
  | errorf (msg : String) : GoError
  | wrapped (prefixMsg : String) (cause : GoError) : GoError

/-- `errors.Unwrap`: only errors built with `%w` unwrap to their cause. -/
def GoError.unwrap : GoError → Option GoError
  | GoError.wrapped _ cause => some cause
  | _ => none

/-- `paperless.IsNotFound` from `errors.go`: a type assertion to
`*paperless.Error` followed by a comparison with `http.StatusNotFound`
(404); every other error shape yields `false`. -/
def IsNotFound : GoError → Bool
  | GoError.api statusCode _ _ => statusCode == 404
  | _ => false

/-- `paperless.IsUnauthorized` from `errors.go`: a type assertion to
`*paperless.Error` followed by a comparison with 401 or 403; every other
error shape yields `false`. -/
def IsUnauthorized : GoError → Bool
  | GoError.api statusCode _ _ => statusCode == 401 || statusCode == 403
  | _ => false

/-! ## Tool registry and dispatcher (`server.go`, `handlers.go`) -/

/-- A tool handler: Go's
`func(ctx context.Context, args map[string]interface{}) (interface{}, error)`.
The Go convention pairs a result with an error; failure is `err != nil`. -/
abbrev ToolHandler := Args → Option JValue × Option GoError

/-- `mcp.Tool` from `server.go`: name, description, input schema and
handler. -/
structure Tool where
  name : String
  description : String
  inputSchema : JValue
  handler : ToolHandler

/-- The server's tool registry `map[string]Tool`, modelled as an
association list (most recent registration first). -/
abbrev ToolMap := List (String × Tool)

/-- Registry lookup `tool, exists := s.tools[name]`. -/
def ToolMap.find? (m : ToolMap) (name : String) : Option Tool := m.lookup name

/-- `Server.RegisterTool` from `server.go`: stores the tool in the map
under its name (Go map assignment overwrites any prior entry) and always
returns a `nil` error.  The SDK-side `AddTool` mirror is an external
collaborator and is not modelled. -/
def RegisterTool (m : ToolMap) (t : Tool) : ToolMap × Option GoError :=
  ((t.name, t) :: m.filter (fun kv => kv.1 ≠ t.name), none)

/-- `Server.HasTool` from `handlers.go`. -/
def HasTool (m : ToolMap) (name : String) : Bool :=
  (m.lookup name).isSome

/-- `Server.GetToolInfo` from `handlers.go`: returns the tool together
with the `exists` flag. -/
def GetToolInfo (m : ToolMap) (name : String) : Option Tool × Bool :=
  (m.lookup name, (m.lookup name).isSome)

/-- `ErrToolNotFound = "tool not found: %s"` instantiated at a name. -/
def toolNotFoundError (toolName : String) : GoError :=
  GoError.errorf ("tool not found: " ++ toolName)

/-- `Server.ExecuteTool` from `handlers.go`: looks the tool up by name;
if absent, returns `nil` and the not-found error without touching any
handler; otherwise invokes the handler, passing a success result through
unchanged and wrapping a handler error with the
`"tool execution failed: %w"` marker. -/
def ExecuteTool (m : ToolMap) (toolName : String) (args : Args) :
    Option JValue × Option GoError :=
  match m.lookup toolName with
  | none => (none, some (toolNotFoundError toolName))
  | some tool =>
    match tool.handler args with
    | (_, some err) => (none, some (GoError.wrapped "tool execution failed" err))
    | (result, none) => (result, none)

/-! ## Auth middleware (`transport.go`) -/

/-- The part of an inbound HTTP request the middleware inspects:
`r.URL.Path` and `r.Header.Get("Authorization")` (the empty string when
the header is absent). -/
structure HttpRequest where
  path : String
  authHeader : String
deriving DecidableEq, Repr

/-- What the middleware does with a request: forward it to the wrapped
handler, or reject it with an HTTP status before dispatch. -/
inductive AuthDecision where
  | passThrough : AuthDecision
  | reject (status : Int) : AuthDecision
deriving DecidableEq, Repr

/-- `HealthEndpoint` from `transport.go`. -/
def HealthEndpoint : String := "/health"

/-- `Server.authMiddleware` from `transport.go`: with no configured token
every request passes; otherwise the health endpoint passes, and any other
request passes only when the `Authorization` header equals exactly
`"Bearer " + token`, else it is rejected with `http.StatusUnauthorized`
(401). -/
def authMiddleware (mcpAuthToken : String) (r : HttpRequest) : AuthDecision :=
  if mcpAuthToken = "" then AuthDecision.passThrough
  else if r.path = HealthEndpoint then AuthDecision.passThrough
  else if r.authHeader = "Bearer " ++ mcpAuthToken then AuthDecision.passThrough
  else AuthDecision.reject 401

/-! ## Resource structs (`types.go`) and their Go JSON encoding

Each struct mirrors the corresponding Go struct field-for-field, in
declaration order.  `FlexibleTime` values are modelled as `Option String`
(its custom `MarshalJSON` emits `null` for the zero time and an RFC3339
string otherwise); pointer fields are `Option`; the `Tags []int` slice is
`Option (List Int)` because, lacking `omitempty`, a `nil` slice encodes
as JSON `null` while a non-nil slice encodes as an array.  The Go field
`Match` is rendered `matchText` since `match` is a Lean keyword. -/

structure GoTag where
  id : Int
  slug : String
  name : String
  color : String
  matchText : String
  matchingAlgorithm : Int
  isInsensitive : Bool
  isInboxTag : Bool
  documentCount : Int
  owner : Int
  userCanChange : Bool

structure GoCorrespondent where
  id : Int
  slug : String
  name : String
  matchText : String
  matchingAlgorithm : Int
  isInsensitive : Bool
  documentCount : Int
  lastCorrespondence : Option String
  owner : Int
  userCanChange : Bool

structure GoDocumentType where
  id : Int
  slug : String
  name : String
  matchText : String
  matchingAlgorithm : Int
  isInsensitive : Bool
  documentCount : Int
  owner : Int
  userCanChange : Bool

structure GoStoragePath where
  id : Int
  slug : String
  name : String
  path : String
  matchText : String
  matchingAlgorithm : Int
  isInsensitive : Bool
  documentCount : Int
  owner : Int
  userCanChange : Bool

structure GoCustomField where
  id : Int
  name : String
  dataType : String

structure GoDocument where
  id : Int
  correspondent : Option Int
  documentType : Option Int
  storagePath : Option Int
  title : String
  content : String
  tags : Option (List Int)
  created : Option String
  createdDate : String
  modified : Option String
  added : Option String
  archiveSerialNumber : Option Int
  originalFileName : String
  archivedFileName : Option String
  owner : Int
  userCanChange : Bool
  notes : List JValue
  customFields : List JValue

/-- A `*int` / zero `FlexibleTime` style nullable number. -/
def jOptNum : Option Int → JValue
  | some n => JValue.num n
  | none => JValue.null

/-- A `*string` / `FlexibleTime` style nullable string. -/
def jOptStr : Option String → JValue
  | some s => JValue.str s
  | none => JValue.null

/-- `encoding/json` output for `paperless.Tag` under the struct tags of
`types.go`: every field is emitted except `owner` and `user_can_change`,
which carry `omitempty` and are dropped at their zero values. -/
def GoTag.marshal (t : GoTag) : List (String × JValue) :=
  [("id", JValue.num t.id),
   ("slug", JValue.str t.slug),
   ("name", JValue.str t.name),
   ("color", JValue.str t.color),
   ("match", JValue.str t.matchText),
   ("matching_algorithm", JValue.num t.matchingAlgorithm),
   ("is_insensitive", JValue.bool t.isInsensitive),
   ("is_inbox_tag", JValue.bool t.isInboxTag),
   ("document_count", JValue.num t.documentCount)]
  ++ (if t.owner = 0 then [] else [("owner", JValue.num t.owner)])
  ++ (if t.userCanChange = false then [] else [("user_can_change", JValue.bool t.userCanChange)])

/-- `encoding/json` output for `paperless.Correspondent`.  Note that
`last_correspondence` carries `omitempty` but is a struct type
(`FlexibleTime`), and Go's `omitempty` never drops struct values, so it
is always emitted (as `null` when zero). -/
def GoCorrespondent.marshal (c : GoCorrespondent) : List (String × JValue) :=
  [("id", JValue.num c.id),
   ("slug", JValue.str c.slug),
   ("name", JValue.str c.name),
   ("match", JValue.str c.matchText),
   ("matching_algorithm", JValue.num c.matchingAlgorithm),
   ("is_insensitive", JValue.bool c.isInsensitive),
   ("document_count", JValue.num c.documentCount),
   ("last_correspondence", jOptStr c.lastCorrespondence)]
  ++ (if c.owner = 0 then [] else [("owner", JValue.num c.owner)])
  ++ (if c.userCanChange = false then [] else [("user_can_change", JValue.bool c.userCanChange)])

/-- `encoding/json` output for `paperless.DocumentType`. -/
def GoDocumentType.marshal (d : GoDocumentType) : List (String × JValue) :=
  [("id", JValue.num d.id),
   ("slug", JValue.str d.slug),
   ("name", JValue.str d.name),
   ("match", JValue.str d.matchText),
   ("matching_algorithm", JValue.num d.matchingAlgorithm),
   ("is_insensitive", JValue.bool d.isInsensitive),
   ("document_count", JValue.num d.documentCount)]
  ++ (if d.owner = 0 then [] else [("owner", JValue.num d.owner)])
  ++ (if d.userCanChange = false then [] else [("user_can_change", JValue.bool d.userCanChange)])

/-- `encoding/json` output for `paperless.StoragePath`. -/
def GoStoragePath.marshal (sp : GoStoragePath) : List (String × JValue) :=
  [("id", JValue.num sp.id),
   ("slug", JValue.str sp.slug),
   ("name", JValue.str sp.name),
   ("path", JValue.str sp.path),
   ("match", JValue.str sp.matchText),
   ("matching_algorithm", JValue.num sp.matchingAlgorithm),
   ("is_insensitive", JValue.bool sp.isInsensitive),
   ("document_count", JValue.num sp.documentCount)]
  ++ (if sp.owner = 0 then [] else [("owner", JValue.num sp.owner)])
  ++ (if sp.userCanChange = false then [] else [("user_can_change", JValue.bool sp.userCanChange)])

/-- `encoding/json` output for `paperless.CustomField`: no `omitempty`
anywhere, so all three fields are always emitted. -/
def GoCustomField.marshal (cf : GoCustomField) : List (String × JValue) :=
  [("id", JValue.num cf.id),
   ("name", JValue.str cf.name),
   ("data_type", JValue.str cf.dataType)]

/-- `encoding/json` output for `paperless.Document`: `content`, `owner`,
`user_can_change`, `notes` and `custom_fields` carry `omitempty` and are
dropped at zero/empty values; every other field is always emitted, with
`nil` pointers, the zero `FlexibleTime` and a `nil` `Tags` slice encoding
as `null`. -/
def GoDocument.marshal (d : GoDocument) : List (String × JValue) :=
  [("id", JValue.num d.id),
   ("correspondent", jOptNum d.correspondent),
   ("document_type", jOptNum d.documentType),
   ("storage_path", jOptNum d.storagePath),
   ("title", JValue.str d.title)]
  ++ (if d.content = "" then [] else [("content", JValue.str d.content)])
  ++ [("tags", match d.tags with
        | some l => JValue.arr (l.map JValue.num)
        | none => JValue.null),
      ("created", jOptStr d.created),
      ("created_date", JValue.str d.createdDate),
      ("modified", jOptStr d.modified),
      ("added", jOptStr d.added),
      ("archive_serial_number", jOptNum d.archiveSerialNumber),
      ("original_file_name", JValue.str d.originalFileName),
      ("archived_file_name", jOptStr d.archivedFileName)]
  ++ (if d.owner = 0 then [] else [("owner", JValue.num d.owner)])
  ++ (if d.userCanChange = false then [] else [("user_can_change", JValue.bool d.userCanChange)])
  ++ (if d.notes.isEmpty then [] else [("notes", JValue.arr d.notes)])
  ++ (if d.customFields.isEmpty then [] else [("custom_fields", JValue.arr d.customFields)])

/-! ## Reified backing-API calls

A handler performs at most one call on the backing `paperless.Client`.
The call, with its arguments exactly as the handler passes them, is
reified as a `ClientCall`; a validation failure returns `Except.error`
and hence no call value exists — the "zero calls to the backing API"
observable. -/

inductive ClientCall where
  | getDocument (id : Int)
  | getDocumentContent (id : Int)
  | deleteDocument (id : Int)
  | getCorrespondent (id : Int)
  | deleteCorrespondent (id : Int)
  | getDocumentType (id : Int)
  | deleteDocumentType (id : Int)
  | getTag (id : Int)
  | deleteTag (id : Int)
  | getStoragePath (id : Int)
  | deleteStoragePath (id : Int)
  | getCustomField (id : Int)
  | deleteCustomField (id : Int)
  | searchDocuments (query : String) (page pageSize : Int)
  | getSimilarDocuments (id : Int) (page pageSize : Int)
  | listCorrespondents (page pageSize : Int)
  | listDocumentTypes (page pageSize : Int)
  | listTags (page pageSize : Int)
  | listStoragePaths (page pageSize : Int)
  | listCustomFields (page pageSize : Int)
  | createDocument (doc : GoDocument)
  | createCorrespondent (c : GoCorrespondent)
  | createDocumentType (dt : GoDocumentType)
  | createTag (t : GoTag)
  | createStoragePath (sp : GoStoragePath)
  | createCustomField (cf : GoCustomField)
  | updateDocument (id : Int) (updates : Args)
  | updateCorrespondent (id : Int) (updates : Args)
  | updateDocumentType (id : Int) (updates : Args)
  | updateTag (id : Int) (updates : Args)
  | updateStoragePath (id : Int) (updates : Args)
  | updateCustomField (id : Int) (updates : Args)
  | bulkEditDocuments (documentIds : List Int) (instructions : Args)

/-- `paperless.PaginatedResponse` from `types.go` (the `results` payload
is kept as the raw JSON array). -/
structure PaginatedResponse where
  count : Int
  next : Option String
  previous : Option String
  results : JValue

/-! ## Handlers

Get/Delete/Create/Update-shaped handlers are functions
`Args → Except String ClientCall`: the validation phase and the single
client call, exactly as in the source (everything after the call only
reshapes the client's response and is not needed by any claim about these
shapes).  List/Search-shaped handlers additionally take the
`PaginatedResponse` the client returns and also produce the result map
the handler builds from it, since the claims speak about the echoed
`page`/`page_size`; decoding `results` into a typed slice is modelled as
passing the raw array through. -/

/-- The `page` extraction block copied verbatim across
`handleSearchDocuments`, `handleFindSimilarDocuments`,
`handleListCorrespondents`, `handleListDocumentTypes`,
`handleListStoragePaths` and `handleListCustomFields`:
`page := DefaultPage; if v, ok := args["page"].(float64); ok { page = int(v); if page < 1 { page = DefaultPage } }`
with `DefaultPage = 1`. -/
def extractPage (args : Args) : Int :=
  match args.getNum? "page" with
  | some p => if p < 1 then 1 else p
  | none => 1

/-- The `page_size` extraction block copied verbatim across the same six
handlers, with `DefaultPageSize = 25` and `MaxPageSize = 100`. -/
def extractPageSize (args : Args) : Int :=
  match args.getNum? "page_size" with
  | some ps => if ps < 1 then 25 else if ps > 100 then 100 else ps
  | none => 25

/-- `handleSearchDocuments` from `document_handlers.go`. -/
def handleSearchDocuments (args : Args) (resp : PaginatedResponse) :
    Except String (ClientCall × Args) :=
  match args.getStr? "query" with
  | none => Except.error "query parameter is required and must be a non-empty string"
  | some query =>
    if query = "" then
      Except.error "query parameter is required and must be a non-empty string"
    else
      let page := extractPage args
      let pageSize := extractPageSize args
      Except.ok (ClientCall.searchDocuments query page pageSize,
        [("count", JValue.num resp.count),
         ("page", JValue.num page),
         ("page_size", JValue.num pageSize),
         ("has_next", JValue.bool resp.next.isSome),
         ("has_prev", JValue.bool resp.previous.isSome),
         ("documents", resp.results)])

/-- `handleFindSimilarDocuments` from `document_handlers.go`. -/
def handleFindSimilarDocuments (args : Args) (resp : PaginatedResponse) :
    Except String (ClientCall × Args) :=
  match args.getNum? "document_id" with
  | none => Except.error "document_id parameter is required and must be an integer"
  | some documentID =>
    if documentID < 1 then
      Except.error "document_id must be a positive integer"
    else
      let page := extractPage args
      let pageSize := extractPageSize args
      Except.ok (ClientCall.getSimilarDocuments documentID page pageSize,
        [("document_id", JValue.num documentID),
         ("count", JValue.num resp.count),
         ("page", JValue.num page),
         ("page_size", JValue.num pageSize),
         ("has_next", JValue.bool resp.next.isSome),
         ("has_prev", JValue.bool resp.previous.isSome),
         ("documents", resp.results)])

/-- `handleListCorrespondents` from `correspondent_handlers.go`. -/
def handleListCorrespondents (args : Args) (resp : PaginatedResponse) :
    Except String (ClientCall × Args) :=
  let page := extractPage args
  let pageSize := extractPageSize args
  Except.ok (ClientCall.listCorrespondents page pageSize,
    [("count", JValue.num resp.count),
     ("page", JValue.num page),
     ("page_size", JValue.num pageSize),
     ("has_next", JValue.bool resp.next.isSome),
     ("has_prev", JValue.bool resp.previous.isSome),
     ("correspondents", resp.results)])

/-- `handleListDocumentTypes` from `doctype_handlers.go`. -/
def handleListDocumentTypes (args : Args) (resp : PaginatedResponse) :
    Except String (ClientCall × Args) :=
  let page := extractPage args
  let pageSize := extractPageSize args
  Except.ok (ClientCall.listDocumentTypes page pageSize,
    [("count", JValue.num resp.count),
     ("page", JValue.num page),
     ("page_size", JValue.num pageSize),
     ("has_next", JValue.bool resp.next.isSome),
     ("has_prev", JValue.bool resp.previous.isSome),
     ("document_types", resp.results)])

/-- `handleListStoragePaths` from the storage-path handlers file. -/
def handleListStoragePaths (args : Args) (resp : PaginatedResponse) :
    Except String (ClientCall × Args) :=
  let page := extractPage args
  let pageSize := extractPageSize args
  Except.ok (ClientCall.listStoragePaths page pageSize,
    [("count", JValue.num resp.count),
     ("page", JValue.num page),
     ("page_size", JValue.num pageSize),
     ("has_next", JValue.bool resp.next.isSome),
     ("has_prev", JValue.bool resp.previous.isSome),
     ("storage_paths", resp.results)])

/-- `handleListCustomFields` from the custom-field handlers file. -/
def handleListCustomFields (args : Args) (resp : PaginatedResponse) :
    Except String (ClientCall × Args) :=
  let page := extractPage args
  let pageSize := extractPageSize args
  Except.ok (ClientCall.listCustomFields page pageSize,
    [("count", JValue.num resp.count),
     ("page", JValue.num page),
     ("page_size", JValue.num pageSize),
     ("has_next", JValue.bool resp.next.isSome),
     ("has_prev", JValue.bool resp.previous.isSome),
     ("fields", resp.results)])

/-- `handleListTags` from the tag handlers file.  Unlike every other
List-shaped handler, it neither clamps the supplied values (it passes the
raw `page`/`page_size` straight to `Client.ListTags`, which applies its
own clamping before the HTTP request) nor echoes `page`/`page_size` in
its result map, which instead carries the raw `next`/`previous`
cursors. -/
def handleListTags (args : Args) (resp : PaginatedResponse) :
    Except String (ClientCall × Args) :=
  let page := (args.getNum? "page").getD 1
  let pageSize := (args.getNum? "page_size").getD 25
  Except.ok (ClientCall.listTags page pageSize,
    [("count", JValue.num resp.count),
     ("next", jOptStr resp.next),
     ("previous", jOptStr resp.previous),
     ("tags", resp.results)])

/-- `Client.ListTags` pagination clamping from the API client: the
`page`/`page_size` actually placed in the HTTP query string after the
client-side defaulting and clamping. -/
def clientListTagsQuery (page pageSize : Int) : Int × Int :=
  (if page < 1 then 1 else page,
   if pageSize < 1 then 25 else if pageSize > 100 then 100 else pageSize)

/-- `handleGetDocument` from `document_handlers.go`. -/
def handleGetDocument (args : Args) : Except String ClientCall :=
  match args.getNum? "document_id" with
  | none => Except.error "document_id parameter is required and must be an integer"
  | some documentID =>
    if documentID < 1 then Except.error "document_id must be a positive integer"
    else Except.ok (ClientCall.getDocument documentID)

/-- `handleGetDocumentContent` from `document_handlers.go`. -/
def handleGetDocumentContent (args : Args) : Except String ClientCall :=
  match args.getNum? "document_id" with
  | none => Except.error "document_id parameter is required and must be an integer"
  | some documentID =>
    if documentID < 1 then Except.error "document_id must be a positive integer"
    else Except.ok (ClientCall.getDocumentContent documentID)

/-- `handleDeleteDocument` from `document_handlers.go`. -/
def handleDeleteDocument (args : Args) : Except String ClientCall :=
  match args.getNum? "document_id" with
  | none => Except.error "document_id parameter is required and must be an integer"
  | some documentID =>
    if documentID < 1 then Except.error "document_id must be a positive integer"
    else Except.ok (ClientCall.deleteDocument documentID)

/-- `handleGetCorrespondent` from `correspondent_handlers.go`. -/
def handleGetCorrespondent (args : Args) : Except String ClientCall :=
  match args.getNum? "correspondent_id" with
  | none => Except.error "correspondent_id parameter is required and must be an integer"
  | some correspondentID =>
    if correspondentID < 1 then Except.error "correspondent_id must be a positive integer"
    else Except.ok (ClientCall.getCorrespondent correspondentID)

/-- `handleDeleteCorrespondent` from `correspondent_handlers.go`. -/
def handleDeleteCorrespondent (args : Args) : Except String ClientCall :=
  match args.getNum? "correspondent_id" with
  | none => Except.error "correspondent_id parameter is required and must be an integer"
  | some correspondentID =>
    if correspondentID < 1 then Except.error "correspondent_id must be a positive integer"
    else Except.ok (ClientCall.deleteCorrespondent correspondentID)

/-- `handleGetDocumentType` from `doctype_handlers.go`. -/
def handleGetDocumentType (args : Args) : Except String ClientCall :=
  match args.getNum? "document_type_id" with
  | none => Except.error "document_type_id parameter is required and must be an integer"
  | some documentTypeID =>
    if documentTypeID < 1 then Except.error "document_type_id must be a positive integer"
    else Except.ok (ClientCall.getDocumentType documentTypeID)

/-- `handleDeleteDocumentType` from `doctype_handlers.go`. -/
def handleDeleteDocumentType (args : Args) : Except String ClientCall :=
  match args.getNum? "document_type_id" with
  | none => Except.error "document_type_id parameter is required and must be an integer"
  | some documentTypeID =>
    if documentTypeID < 1 then Except.error "document_type_id must be a positive integer"
    else Except.ok (ClientCall.deleteDocumentType documentTypeID)

/-- `handleGetTag` from the tag handlers file.  Note: the source checks
only the `float64` type assertion — there is no positivity check, so any
integer-valued `tag_id` (zero or negative included) is forwarded to
`Client.GetTag`. -/
def handleGetTag (args : Args) : Except String ClientCall :=
  match args.getNum? "tag_id" with
  | none => Except.error "tag_id is required and must be an integer"
  | some tagID => Except.ok (ClientCall.getTag tagID)

/-- `handleDeleteTag` from the tag handlers file — like `handleGetTag`,
no positivity check. -/
def handleDeleteTag (args : Args) : Except String ClientCall :=
  match args.getNum? "tag_id" with
  | none => Except.error "tag_id is required and must be an integer"
  | some tagID => Except.ok (ClientCall.deleteTag tagID)

/-- `handleGetStoragePath` from the storage-path handlers file. -/
def handleGetStoragePath (args : Args) : Except String ClientCall :=
  match args.getNum? "storage_path_id" with
  | none => Except.error "storage_path_id parameter is required and must be an integer"
  | some storagePathID =>
    if storagePathID < 1 then Except.error "storage_path_id must be a positive integer"
    else Except.ok (ClientCall.getStoragePath storagePathID)

/-- `handleDeleteStoragePath` from the storage-path handlers file. -/
def handleDeleteStoragePath (args : Args) : Except String ClientCall :=
  match args.getNum? "storage_path_id" with
  | none => Except.error "storage_path_id parameter is required and must be an integer"
  | some storagePathID =>
    if storagePathID < 1 then Except.error "storage_path_id must be a positive integer"
    else Except.ok (ClientCall.deleteStoragePath storagePathID)

/-- `handleGetCustomField` from the custom-field handlers file. -/
def handleGetCustomField (args : Args) : Except String ClientCall :=
  match args.getNum? "field_id" with
  | none => Except.error "field_id parameter is required and must be an integer"
  | some fieldID =>
    if fieldID < 1 then Except.error "field_id must be a positive integer"
    else Except.ok (ClientCall.getCustomField fieldID)

/-- `handleDeleteCustomField` from the custom-field handlers file. -/
def handleDeleteCustomField (args : Args) : Except String ClientCall :=
  match args.getNum? "field_id" with
  | none => Except.error "field_id parameter is required and must be an integer"
  | some fieldID =>
    if fieldID < 1 then Except.error "field_id must be a positive integer"
    else Except.ok (ClientCall.deleteCustomField fieldID)

/-- The element loop of `handleCreateDocument`'s tag extraction: each
element that type-asserts to `float64` is kept (as an `int`), anything
else is silently skipped. -/
def collectTagIds (xs : List JValue) : List Int :=
  xs.filterMap (fun v =>
    match v with
    | JValue.num n => some n
    | _ => none)

/-- `handleCreateDocument` from `document_handlers.go`: requires a
non-empty `title`, then builds a `paperless.Document` whose only
populated fields are the ones the caller supplied; every other field
keeps the Go zero value of its type. -/
def handleCreateDocument (args : Args) : Except String ClientCall :=
  match args.getStr? "title" with
  | none => Except.error "title parameter is required and must be a non-empty string"
  | some title =>
    if title = "" then
      Except.error "title parameter is required and must be a non-empty string"
    else
      -- Field order: id, correspondent, documentType, storagePath, title,
      -- content, tags, created, createdDate, modified, added,
      -- archiveSerialNumber, originalFileName, archivedFileName, owner,
      -- userCanChange, notes, customFields.
      Except.ok (ClientCall.createDocument
        ⟨0,
         args.getNum? "correspondent",
         args.getNum? "document_type",
         args.getNum? "storage_path",
         title,
         "",
         (args.getArr? "tags").map collectTagIds,
         none, "", none, none, none, "", none, 0, false, [], []⟩)

/-- `handleCreateCorrespondent` from `correspondent_handlers.go`. -/
def handleCreateCorrespondent (args : Args) : Except String ClientCall :=
  match args.getStr? "name" with
  | none => Except.error "name parameter is required and must be a non-empty string"
  | some name =>
    if name = "" then
      Except.error "name parameter is required and must be a non-empty string"
    else
      -- Field order: id, slug, name, matchText, matchingAlgorithm,
      -- isInsensitive, documentCount, lastCorrespondence, owner,
      -- userCanChange.
      Except.ok (ClientCall.createCorrespondent
        ⟨0, "", name,
         (args.getStr? "match").getD "",
         (args.getNum? "matching_algorithm").getD 0,
         (args.getBool? "is_insensitive").getD false,
         0, none, 0, false⟩)

/-- `handleCreateDocumentType` from `doctype_handlers.go`. -/
def handleCreateDocumentType (args : Args) : Except String ClientCall :=
  match args.getStr? "name" with
  | none => Except.error "name parameter is required and must be a non-empty string"
  | some name =>
    if name = "" then
      Except.error "name parameter is required and must be a non-empty string"
    else
      -- Field order: id, slug, name, matchText, matchingAlgorithm,
      -- isInsensitive, documentCount, owner, userCanChange.
      Except.ok (ClientCall.createDocumentType
        ⟨0, "", name,
         (args.getStr? "match").getD "",
         (args.getNum? "matching_algorithm").getD 0,
         (args.getBool? "is_insensitive").getD false,
         0, 0, false⟩)

/-- `handleCreateTag` from the tag handlers file: requires non-empty
`name` and `color`. -/
def handleCreateTag (args : Args) : Except String ClientCall :=
  match args.getStr? "name" with
  | none => Except.error "name is required and must be a non-empty string"
  | some name =>
    if name = "" then
      Except.error "name is required and must be a non-empty string"
    else
      match args.getStr? "color" with
      | none => Except.error "color is required and must be a non-empty string"
      | some color =>
        if color = "" then
          Except.error "color is required and must be a non-empty string"
        else
          -- Field order: id, slug, name, color, matchText,
          -- matchingAlgorithm, isInsensitive, isInboxTag, documentCount,
          -- owner, userCanChange.
          Except.ok (ClientCall.createTag
            ⟨0, "", name, color,
             (args.getStr? "match").getD "",
             (args.getNum? "matching_algorithm").getD 0,
             (args.getBool? "is_insensitive").getD false,
             (args.getBool? "is_inbox_tag").getD false,
             0, 0, false⟩)

/-- `handleCreateStoragePath` from the storage-path handlers file:
requires non-empty `name` and `path`. -/
def handleCreateStoragePath (args : Args) : Except String ClientCall :=
  match args.getStr? "name" with
  | none => Except.error "name parameter is required and must be a non-empty string"
  | some name =>
    if name = "" then
      Except.error "name parameter is required and must be a non-empty string"
    else
      match args.getStr? "path" with
      | none => Except.error "path parameter is required and must be a non-empty string"
      | some pathStr =>
        if pathStr = "" then
          Except.error "path parameter is required and must be a non-empty string"
        else
          -- Field order: id, slug, name, path, matchText,
          -- matchingAlgorithm, isInsensitive, documentCount, owner,
          -- userCanChange.
          Except.ok (ClientCall.createStoragePath
            ⟨0, "", name, pathStr,
             (args.getStr? "match").getD "",
             (args.getNum? "matching_algorithm").getD 0,
             (args.getBool? "is_insensitive").getD false,
             0, 0, false⟩)

/-- `handleCreateCustomField` from the custom-field handlers file:
requires non-empty `name` and `data_type`; there are no optional
fields. -/
def handleCreateCustomField (args : Args) : Except String ClientCall :=
  match args.getStr? "name" with
  | none => Except.error "name parameter is required and must be a non-empty string"
  | some name =>
    if name = "" then
      Except.error "name parameter is required and must be a non-empty string"
    else
      match args.getStr? "data_type" with
      | none => Except.error "data_type parameter is required and must be a non-empty string"
      | some dataType =>
        if dataType = "" then
          Except.error "data_type parameter is required and must be a non-empty string"
        else
          Except.ok (ClientCall.createCustomField ⟨0, name, dataType⟩)

/-- `handleUpdateDocument` from `document_handlers.go`: validates the ID,
copies every other key of the argument bag verbatim into the partial
update map, and rejects an empty update. -/
def handleUpdateDocument (args : Args) : Except String ClientCall :=
  match args.getNum? "document_id" with
  | none => Except.error "document_id parameter is required and must be an integer"
  | some documentID =>
    if documentID < 1 then Except.error "document_id must be a positive integer"
    else
      let updates := args.filter (fun kv => kv.1 ≠ "document_id")
      if updates.isEmpty then
        Except.error "at least one field to update must be provided"
      else Except.ok (ClientCall.updateDocument documentID updates)

/-- `handleUpdateCorrespondent` from `correspondent_handlers.go`: same
verbatim-copy shape as `handleUpdateDocument`. -/
def handleUpdateCorrespondent (args : Args) : Except String ClientCall :=
  match args.getNum? "correspondent_id" with
  | none => Except.error "correspondent_id parameter is required and must be an integer"
  | some correspondentID =>
    if correspondentID < 1 then Except.error "correspondent_id must be a positive integer"
    else
      let updates := args.filter (fun kv => kv.1 ≠ "correspondent_id")
      if updates.isEmpty then
        Except.error "at least one field to update must be provided"
      else Except.ok (ClientCall.updateCorrespondent correspondentID updates)

/-- `handleUpdateDocumentType` from `doctype_handlers.go`: same
verbatim-copy shape. -/
def handleUpdateDocumentType (args : Args) : Except String ClientCall :=
  match args.getNum? "document_type_id" with
  | none => Except.error "document_type_id parameter is required and must be an integer"
  | some documentTypeID =>
    if documentTypeID < 1 then Except.error "document_type_id must be a positive integer"
    else
      let updates := args.filter (fun kv => kv.1 ≠ "document_type_id")
      if updates.isEmpty then
        Except.error "at least one field to update must be provided"
      else Except.ok (ClientCall.updateDocumentType documentTypeID updates)

/-- `handleUpdateStoragePath` from the storage-path handlers file: same
verbatim-copy shape. -/
def handleUpdateStoragePath (args : Args) : Except String ClientCall :=
  match args.getNum? "storage_path_id" with
  | none => Except.error "storage_path_id parameter is required and must be an integer"
  | some storagePathID =>
    if storagePathID < 1 then Except.error "storage_path_id must be a positive integer"
    else
      let updates := args.filter (fun kv => kv.1 ≠ "storage_path_id")
      if updates.isEmpty then
        Except.error "at least one field to update must be provided"
      else Except.ok (ClientCall.updateStoragePath storagePathID updates)

/-- Go `if v, ok := args[key].(T); ok { updates[key] = v }`: the single
conditional-entry step shared by the recognized-key update-map builders
below. -/
def optEntry {β : Type} (key : String) (f : β → JValue) : Option β → Args
  | some x => [(key, f x)]
  | none => []

/-- Go `if v, ok := args[key].(string); ok && v != "" { updates[key] = v }`:
the entry is added only when the assertion succeeds and the string is
non-empty. -/
def nonEmptyStrEntry (key : String) : Option String → Args
  | some s => if s ≠ "" then [(key, JValue.str s)] else []
  | none => []

/-- The update-map construction block of `handleUpdateTag` in the tag
handlers file, one conditional entry per recognized key, in source
order. -/
def tagUpdates (args : Args) : Args :=
  optEntry "name" JValue.str (args.getStr? "name")
  ++ optEntry "color" JValue.str (args.getStr? "color")
  ++ optEntry "match" JValue.str (args.getStr? "match")
  ++ optEntry "matching_algorithm" JValue.num (args.getNum? "matching_algorithm")
  ++ optEntry "is_insensitive" JValue.bool (args.getBool? "is_insensitive")
  ++ optEntry "is_inbox_tag" JValue.bool (args.getBool? "is_inbox_tag")

/-- `handleUpdateTag` from the tag handlers file.  Unlike the four
verbatim-copy update handlers, it does not check positivity of `tag_id`,
and its update map is the recognized-key selection `tagUpdates`; an
empty selection is rejected. -/
def handleUpdateTag (args : Args) : Except String ClientCall :=
  match args.getNum? "tag_id" with
  | none => Except.error "tag_id is required and must be an integer"
  | some tagID =>
    let updates := tagUpdates args
    if updates.isEmpty then
      Except.error "at least one field must be provided for update"
    else Except.ok (ClientCall.updateTag tagID updates)

/-- The update-map construction block of `handleUpdateCustomField` in
the custom-field handlers file: only `name` and `data_type` are
considered, and only when they are non-empty strings; every other key is
dropped. -/
def customFieldUpdates (args : Args) : Args :=
  nonEmptyStrEntry "name" (args.getStr? "name")
  ++ nonEmptyStrEntry "data_type" (args.getStr? "data_type")

/-- `handleUpdateCustomField` from the custom-field handlers file: its
update map is the recognized-key selection `customFieldUpdates`; an
empty selection is rejected. -/
def handleUpdateCustomField (args : Args) : Except String ClientCall :=
  match args.getNum? "field_id" with
  | none => Except.error "field_id parameter is required and must be an integer"
  | some fieldID =>
    if fieldID < 1 then Except.error "field_id must be a positive integer"
    else
      let updates := customFieldUpdates args
      if updates.isEmpty then
        Except.error "at least one field to update must be provided"
      else Except.ok (ClientCall.updateCustomField fieldID updates)

/-- The element check of the modelled bulk-edit ID parsing: every element
must be a positive integer. -/
def parsePositiveId : JValue → Option Int
  | JValue.num n => if n < 1 then none else some n
  | _ => none

/-- Modelled from the spec: `handleBulkEditDocuments` is registered under
the name `bulk_edit_documents` in `tools.go` but its body is not among
the provided source files.  Per the spec's BulkEdit contract,
`document_ids` must be a non-empty array of positive integers, the five
mutation fields are independently optional, and the handler issues
exactly one batched mutation call to the backing API carrying every
listed document ID together with the supplied mutation instructions.
The returned list of client calls makes the single-batched-call shape
observable. -/
def handleBulkEditDocuments (args : Args) : Except String (List ClientCall) :=
  match args.getArr? "document_ids" with
  | none => Except.error "document_ids parameter is required and must be an array of integers"
  | some xs =>
    match xs.mapM parsePositiveId with
    | none => Except.error "document_ids must contain only positive integers"
    | some ids =>
      if ids.isEmpty then
        Except.error "document_ids must be a non-empty array"
      else
        let instructions : Args :=
          (match args.getArr? "add_tags" with
           | some ts => [("add_tags", JValue.arr ts)] | none => [])
          ++ (match args.getArr? "remove_tags" with
           | some ts => [("remove_tags", JValue.arr ts)] | none => [])
          ++ (match args.getNum? "set_correspondent" with
           | some n => [("set_correspondent", JValue.num n)] | none => [])
          ++ (match args.getNum? "set_document_type" with
           | some n => [("set_document_type", JValue.num n)] | none => [])
          ++ (match args.getNum? "set_storage_path" with
           | some n => [("set_storage_path", JValue.num n)] | none => [])
        Except.ok [ClientCall.bulkEditDocuments ids instructions]

/-- Observation helper: the `(page, pageSize)` pair a List/Search-shaped
handler passed to the backing API client, when a call was made. -/
def passedPagination : Except String (ClientCall × Args) → Option (Int × Int)
  | Except.ok (ClientCall.searchDocuments _ p ps, _) => some (p, ps)
  | Except.ok (ClientCall.getSimilarDocuments _ p ps, _) => some (p, ps)
  | Except.ok (ClientCall.listCorrespondents p ps, _) => some (p, ps)
  | Except.ok (ClientCall.listDocumentTypes p ps, _) => some (p, ps)
  | Except.ok (ClientCall.listTags p ps, _) => some (p, ps)
  | Except.ok (ClientCall.listStoragePaths p ps, _) => some (p, ps)
  | Except.ok (ClientCall.listCustomFields p ps, _) => some (p, ps)
  | _ => none

/-- Observation helper: the `page` and `page_size` entries of the result
map a List/Search-shaped handler returned, when a call was made. -/
def echoedPagination : Except String (ClientCall × Args) → Option (Option JValue × Option JValue)
  | Except.ok (_, res) => some (res.lookup "page", res.lookup "page_size")
  | Except.error _ => none

/-! ## Theorems -/

/-- C1: for every tool name with no registration in the tools map and
every argument bag, `ExecuteTool` returns a `nil` result paired with the
`"tool not found: <name>"` dispatch error, and no tool handler is
invoked — the outcome is independent of every handler stored in any
registry lacking the name. -/
theorem executeTool_unregistered (m : ToolMap) (toolName : String) (args : Args)
    (h : m.lookup toolName = none) :
    ExecuteTool m toolName args =
      (none, some (GoError.errorf ("tool not found: " ++ toolName))) ∧
    (∀ m' : ToolMap, m'.lookup toolName = none →
      ExecuteTool m' toolName args = ExecuteTool m toolName args) := by
  constructor
  · simp [ExecuteTool, h, toolNotFoundError]
  · intro m' h'
    simp [ExecuteTool, h, h']

/-- Witness for C1 at the spec's own example `execute("nonexistent_tool", {})`
on an empty registry. -/
theorem executeTool_unregistered_witness :
    ExecuteTool [] "nonexistent_tool" [] =
      (none, some (GoError.errorf "tool not found: nonexistent_tool")) :=
  (executeTool_unregistered [] "nonexistent_tool" [] rfl).1

/-- C2: for every registered tool and argument bag, `ExecuteTool` returns
the handler's result unchanged on handler success, and on handler error
returns a `nil` result with the handler's error wrapped under the
`"tool execution failed"` marker, the underlying cause preserved (it is
recovered by `errors.Unwrap`). -/
theorem executeTool_registered (m : ToolMap) (toolName : String) (args : Args)
    (tool : Tool) (r : Option JValue) (e : GoError)
    (h : m.lookup toolName = some tool) :
    (tool.handler args = (r, none) → ExecuteTool m toolName args = (r, none)) ∧
    (tool.handler args = (r, some e) →
      ExecuteTool m toolName args =
        (none, some (GoError.wrapped "tool execution failed" e)) ∧
      (GoError.wrapped "tool execution failed" e).unwrap = some e) := by
  constructor
  · intro hh
    simp [ExecuteTool, h, hh]
  · intro hh
    simp [ExecuteTool, h, hh, GoError.unwrap]

/-- Witness for C2: a registry holding one tool whose handler succeeds
with a string result, and one whose handler fails; the dispatcher passes
the success through unchanged and wraps the failure. -/
theorem executeTool_registered_witness :
    ExecuteTool [("ping", ⟨"ping", "", JValue.null, fun _ => (some (JValue.str "pong"), none)⟩)]
        "ping" [] = (some (JValue.str "pong"), none) ∧
    ExecuteTool [("boom", ⟨"boom", "", JValue.null, fun _ => (none, some (GoError.errorf "kaput"))⟩)]
        "boom" [] =
      (none, some (GoError.wrapped "tool execution failed" (GoError.errorf "kaput"))) := by
  constructor
  · exact (executeTool_registered
      [("ping", ⟨"ping", "", JValue.null, fun _ => (some (JValue.str "pong"), none)⟩)] "ping" []
      ⟨"ping", "", JValue.null, fun _ => (some (JValue.str "pong"), none)⟩
      (some (JValue.str "pong")) (GoError.errorf "kaput") rfl).1 rfl
  · exact ((executeTool_registered
      [("boom", ⟨"boom", "", JValue.null, fun _ => (none, some (GoError.errorf "kaput"))⟩)] "boom" []
      ⟨"boom", "", JValue.null, fun _ => (none, some (GoError.errorf "kaput"))⟩
      none (GoError.errorf "kaput") rfl).2 rfl).1

/-- C9: `RegisterTool` always returns a `nil` error; registering two
tools with the same name leaves the registry mapping the name to the
second (last write wins, no duplicate-name error); and after
`RegisterTool(t)`, `GetToolInfo(t.name)` returns `t` with the exists
flag set and `HasTool(t.name)` is true. -/
theorem registerTool_spec (m : ToolMap) (t1 t2 t : Tool)
    (hname : t1.name = t2.name) :
    (RegisterTool m t).2 = none ∧
    ToolMap.find? (RegisterTool (RegisterTool m t1).1 t2).1 t1.name = some t2 ∧
    GetToolInfo (RegisterTool m t).1 t.name = (some t, true) ∧
    HasTool (RegisterTool m t).1 t.name = true := by
  refine ⟨rfl, ?_, ?_, ?_⟩
  · simp [RegisterTool, ToolMap.find?, List.lookup, hname]
  · simp [RegisterTool, GetToolInfo, List.lookup]
  · simp [RegisterTool, HasTool, List.lookup]

/-- Witness for C9: two distinct tools named `ping` registered in
sequence on an empty registry; the registry maps `ping` to the second. -/
theorem registerTool_spec_witness :
    (RegisterTool [] ⟨"ping", "first", JValue.null, fun _ => (none, none)⟩).2 = none ∧
    ToolMap.find? (RegisterTool
        (RegisterTool [] ⟨"ping", "first", JValue.null, fun _ => (none, none)⟩).1
        ⟨"ping", "second", JValue.null, fun _ => (none, none)⟩).1 "ping" =
      some ⟨"ping", "second", JValue.null, fun _ => (none, none)⟩ ∧
    GetToolInfo (RegisterTool [] ⟨"ping", "first", JValue.null, fun _ => (none, none)⟩).1 "ping" =
      (some ⟨"ping", "first", JValue.null, fun _ => (none, none)⟩, true) ∧
    HasTool (RegisterTool [] ⟨"ping", "first", JValue.null, fun _ => (none, none)⟩).1 "ping" = true :=
  registerTool_spec [] ⟨"ping", "first", JValue.null, fun _ => (none, none)⟩
    ⟨"ping", "second", JValue.null, fun _ => (none, none)⟩
    ⟨"ping", "first", JValue.null, fun _ => (none, none)⟩ rfl

/-- C8: with a configured shared-secret token, the auth middleware passes
a request to the wrapped handler exactly when the path is the health
endpoint or the `Authorization` header equals `"Bearer " + token`, and
every other request is rejected with status 401 before dispatch; with no
token configured, every request passes through unexamined. -/
theorem authMiddleware_spec (token : String) (r : HttpRequest) :
    (authMiddleware token r = AuthDecision.passThrough ↔
      (token = "" ∨ r.path = "/health" ∨ r.authHeader = "Bearer " ++ token)) ∧
    (authMiddleware token r = AuthDecision.passThrough ∨
      authMiddleware token r = AuthDecision.reject 401) := by
  unfold authMiddleware HealthEndpoint
  split_ifs <;> simp_all

/-- C10: `IsNotFound` holds exactly of a `paperless.Error` with status
404, `IsUnauthorized` exactly of a `paperless.Error` with status 401 or
403, and both are false for every error of any other shape. -/
theorem isNotFound_isUnauthorized_spec (e : GoError) :
    (IsNotFound e = true ↔
      ∃ msg details, e = GoError.api 404 msg details) ∧
    (IsUnauthorized e = true ↔
      ∃ code msg details, e = GoError.api code msg details ∧
        (code = 401 ∨ code = 403)) := by
  cases e with
  | api code msg details =>
    constructor
    · simp only [IsNotFound, beq_iff_eq, GoError.api.injEq]
      constructor
      · intro h
        exact ⟨msg, details, by simp [h]⟩
      · rintro ⟨m, d, h1, h2, h3⟩
        omega
    · simp only [IsUnauthorized, Bool.or_eq_true, beq_iff_eq, GoError.api.injEq]
      constructor
      · intro h
        exact ⟨code, msg, details, ⟨rfl, rfl, rfl⟩, by omega⟩
      · rintro ⟨c, m, d, ⟨h1, h2, h3⟩, h4⟩
        omega
  | errorf msg =>
    constructor <;> simp [IsNotFound, IsUnauthorized]
  | wrapped p c =>
    constructor <;> simp [IsNotFound, IsUnauthorized]

/-- C3 counterexample: `get_tag` with `tag_id = 0` — an ID present and
integer-coercible but not positive — does not return a validation error;
it issues a backing-API call `GetTag(0)`, contradicting the claim that
every Get/Delete-shaped handler rejects IDs not coercible to a positive
integer before any API call. -/
theorem getTag_nonpositive_id_counterexample :
    handleGetTag [("tag_id", JValue.num 0)] = Except.ok (ClientCall.getTag 0) := rfl

/-- C3 as amended: every Get/Delete-shaped handler fails with a
validation error and makes zero backing-API calls when its ID argument
is absent or not integer-coercible; every such handler except `get_tag`
and `delete_tag` additionally rejects a non-positive ID before any API
call; `get_tag` and `delete_tag` skip the positivity check and forward
any integer-coercible ID (zero or negative included) to the backing
API.  Bag `a` has every ID key absent or non-numeric; bag `b` carries
every ID key with the non-positive value `m`. -/
theorem getDeleteHandlers_id_validation (a b : Args) (m : Int) (hm : m < 1)
    (ha1 : a.getNum? "document_id" = none)
    (ha2 : a.getNum? "correspondent_id" = none)
    (ha3 : a.getNum? "document_type_id" = none)
    (ha4 : a.getNum? "storage_path_id" = none)
    (ha5 : a.getNum? "field_id" = none)
    (ha6 : a.getNum? "tag_id" = none)
    (hb1 : b.getNum? "document_id" = some m)
    (hb2 : b.getNum? "correspondent_id" = some m)
    (hb3 : b.getNum? "document_type_id" = some m)
    (hb4 : b.getNum? "storage_path_id" = some m)
    (hb5 : b.getNum? "field_id" = some m)
    (hb6 : b.getNum? "tag_id" = some m) :
    (handleGetDocument a = Except.error "document_id parameter is required and must be an integer" ∧
     handleGetDocumentContent a = Except.error "document_id parameter is required and must be an integer" ∧
     handleDeleteDocument a = Except.error "document_id parameter is required and must be an integer" ∧
     handleGetCorrespondent a = Except.error "correspondent_id parameter is required and must be an integer" ∧
     handleDeleteCorrespondent a = Except.error "correspondent_id parameter is required and must be an integer" ∧
     handleGetDocumentType a = Except.error "document_type_id parameter is required and must be an integer" ∧
     handleDeleteDocumentType a = Except.error "document_type_id parameter is required and must be an integer" ∧
     handleGetStoragePath a = Except.error "storage_path_id parameter is required and must be an integer" ∧
     handleDeleteStoragePath a = Except.error "storage_path_id parameter is required and must be an integer" ∧
     handleGetCustomField a = Except.error "field_id parameter is required and must be an integer" ∧
     handleDeleteCustomField a = Except.error "field_id parameter is required and must be an integer" ∧
     handleGetTag a = Except.error "tag_id is required and must be an integer" ∧
     handleDeleteTag a = Except.error "tag_id is required and must be an integer") ∧
    (handleGetDocument b = Except.error "document_id must be a positive integer" ∧
     handleGetDocumentContent b = Except.error "document_id must be a positive integer" ∧
     handleDeleteDocument b = Except.error "document_id must be a positive integer" ∧
     handleGetCorrespondent b = Except.error "correspondent_id must be a positive integer" ∧
     handleDeleteCorrespondent b = Except.error "correspondent_id must be a positive integer" ∧
     handleGetDocumentType b = Except.error "document_type_id must be a positive integer" ∧
     handleDeleteDocumentType b = Except.error "document_type_id must be a positive integer" ∧
     handleGetStoragePath b = Except.error "storage_path_id must be a positive integer" ∧
     handleDeleteStoragePath b = Except.error "storage_path_id must be a positive integer" ∧
     handleGetCustomField b = Except.error "field_id must be a positive integer" ∧
     handleDeleteCustomField b = Except.error "field_id must be a positive integer") ∧
    (handleGetTag b = Except.ok (ClientCall.getTag m) ∧
     handleDeleteTag b = Except.ok (ClientCall.deleteTag m)) := by
  refine ⟨⟨?_, ?_, ?_, ?_, ?_, ?_, ?_, ?_, ?_, ?_, ?_, ?_, ?_⟩,
          ⟨?_, ?_, ?_, ?_, ?_, ?_, ?_, ?_, ?_, ?_, ?_⟩, ?_, ?_⟩ <;>
    simp [handleGetDocument, handleGetDocumentContent, handleDeleteDocument,
      handleGetCorrespondent, handleDeleteCorrespondent,
      handleGetDocumentType, handleDeleteDocumentType,
      handleGetStoragePath, handleDeleteStoragePath,
      handleGetCustomField, handleDeleteCustomField,
      handleGetTag, handleDeleteTag,
      ha1, ha2, ha3, ha4, ha5, ha6, hb1, hb2, hb3, hb4, hb5, hb6, hm]

/-- Witness for C3 (amended) at `a = {}` and
`b = {document_id: 0, correspondent_id: 0, document_type_id: 0,
storage_path_id: 0, field_id: 0, tag_id: 0}`: in particular
`get_tag`/`delete_tag` issue `GetTag(0)`/`DeleteTag(0)`. -/
theorem getDeleteHandlers_id_validation_witness :
    handleGetTag
        [("document_id", JValue.num 0), ("correspondent_id", JValue.num 0),
         ("document_type_id", JValue.num 0), ("storage_path_id", JValue.num 0),
         ("field_id", JValue.num 0), ("tag_id", JValue.num 0)] =
      Except.ok (ClientCall.getTag 0) ∧
    handleGetDocument
        [("document_id", JValue.num 0), ("correspondent_id", JValue.num 0),
         ("document_type_id", JValue.num 0), ("storage_path_id", JValue.num 0),
         ("field_id", JValue.num 0), ("tag_id", JValue.num 0)] =
      Except.error "document_id must be a positive integer" ∧
    handleGetDocument [] = Except.error "document_id parameter is required and must be an integer" :=
  have h := getDeleteHandlers_id_validation []
    [("document_id", JValue.num 0), ("correspondent_id", JValue.num 0),
     ("document_type_id", JValue.num 0), ("storage_path_id", JValue.num 0),
     ("field_id", JValue.num 0), ("tag_id", JValue.num 0)] 0 (by decide)
    rfl rfl rfl rfl rfl rfl rfl rfl rfl rfl rfl rfl
  ⟨h.2.2.1, h.2.1.1, h.1.1⟩

/-- C6 counterexample: `list_tags` with `page_size = 500` passes the raw
`(page, page_size) = (1, 500)` to the backing client — no clamping to
100 in the handler — and its result map echoes neither `page` nor
`page_size`, contradicting the claim for the `list_tags` member of the
List-shaped family. -/
theorem listTags_pagination_counterexample :
    passedPagination (handleListTags [("page_size", JValue.num 500)]
        ⟨0, none, none, JValue.arr []⟩) = some (1, 500) ∧
    echoedPagination (handleListTags [("page_size", JValue.num 500)]
        ⟨0, none, none, JValue.arr []⟩) = some (none, none) :=
  ⟨rfl, rfl⟩

/-- C6 as amended: `list_correspondents`, `list_document_types`,
`list_storage_paths`, `list_custom_fields`, `search_documents` and
`find_similar_documents` pass to the backing API and echo in their
results a page of 1 when `page` is absent or less than 1 and a page size
of 25 when `page_size` is absent or less than 1, clamped to 100 when
larger than 100; `list_tags`, however, passes the raw argument values to
the client method (which applies the same defaulting/clamping itself
before building the HTTP query string) and echoes no pagination keys at
all.  Bag `a1` omits both keys, `a2` carries both with values below 1,
and `a3` omits `page` and carries `page_size` above 100; all three carry
the `query` and `document_id` fields the Search/FindSimilar shapes
require. -/
theorem listHandlers_pagination (a1 a2 a3 : Args) (p2 s2 s3 did : Int)
    (q : String) (resp : PaginatedResponse)
    (h1p : a1.getNum? "page" = none) (h1s : a1.getNum? "page_size" = none)
    (h2p : a2.getNum? "page" = some p2) (hp2 : p2 < 1)
    (h2s : a2.getNum? "page_size" = some s2) (hs2 : s2 < 1)
    (h3p : a3.getNum? "page" = none)
    (h3s : a3.getNum? "page_size" = some s3) (hs3 : 100 < s3)
    (hq1 : a1.getStr? "query" = some q) (hq2 : a2.getStr? "query" = some q)
    (hq3 : a3.getStr? "query" = some q) (hq : q ≠ "")
    (hd1 : a1.getNum? "document_id" = some did)
    (hd2 : a2.getNum? "document_id" = some did)
    (hd3 : a3.getNum? "document_id" = some did) (hdid : 1 ≤ did) :
    ((passedPagination (handleSearchDocuments a1 resp),
        echoedPagination (handleSearchDocuments a1 resp)) =
        (some (1, 25), some (some (JValue.num 1), some (JValue.num 25))) ∧
     (passedPagination (handleSearchDocuments a2 resp),
        echoedPagination (handleSearchDocuments a2 resp)) =
        (some (1, 25), some (some (JValue.num 1), some (JValue.num 25))) ∧
     (passedPagination (handleSearchDocuments a3 resp),
        echoedPagination (handleSearchDocuments a3 resp)) =
        (some (1, 100), some (some (JValue.num 1), some (JValue.num 100)))) ∧
    ((passedPagination (handleFindSimilarDocuments a1 resp),
        echoedPagination (handleFindSimilarDocuments a1 resp)) =
        (some (1, 25), some (some (JValue.num 1), some (JValue.num 25))) ∧
     (passedPagination (handleFindSimilarDocuments a2 resp),
        echoedPagination (handleFindSimilarDocuments a2 resp)) =
        (some (1, 25), some (some (JValue.num 1), some (JValue.num 25))) ∧
     (passedPagination (handleFindSimilarDocuments a3 resp),
        echoedPagination (handleFindSimilarDocuments a3 resp)) =
        (some (1, 100), some (some (JValue.num 1), some (JValue.num 100)))) ∧
    ((passedPagination (handleListCorrespondents a1 resp),
        echoedPagination (handleListCorrespondents a1 resp)) =
        (some (1, 25), some (some (JValue.num 1), some (JValue.num 25))) ∧
     (passedPagination (handleListCorrespondents a2 resp),
        echoedPagination (handleListCorrespondents a2 resp)) =
        (some (1, 25), some (some (JValue.num 1), some (JValue.num 25))) ∧
     (passedPagination (handleListCorrespondents a3 resp),
        echoedPagination (handleListCorrespondents a3 resp)) =
        (some (1, 100), some (some (JValue.num 1), some (JValue.num 100)))) ∧
    ((passedPagination (handleListDocumentTypes a1 resp),
        echoedPagination (handleListDocumentTypes a1 resp)) =
        (some (1, 25), some (some (JValue.num 1), some (JValue.num 25))) ∧
     (passedPagination (handleListDocumentTypes a2 resp),
        echoedPagination (handleListDocumentTypes a2 resp)) =
        (some (1, 25), some (some (JValue.num 1), some (JValue.num 25))) ∧
     (passedPagination (handleListDocumentTypes a3 resp),
        echoedPagination (handleListDocumentTypes a3 resp)) =
        (some (1, 100), some (some (JValue.num 1), some (JValue.num 100)))) ∧
    ((passedPagination (handleListStoragePaths a1 resp),
        echoedPagination (handleListStoragePaths a1 resp)) =
        (some (1, 25), some (some (JValue.num 1), some (JValue.num 25))) ∧
     (passedPagination (handleListStoragePaths a2 resp),
        echoedPagination (handleListStoragePaths a2 resp)) =
        (some (1, 25), some (some (JValue.num 1), some (JValue.num 25))) ∧
     (passedPagination (handleListStoragePaths a3 resp),
        echoedPagination (handleListStoragePaths a3 resp)) =
        (some (1, 100), some (some (JValue.num 1), some (JValue.num 100)))) ∧
    ((passedPagination (handleListCustomFields a1 resp),
        echoedPagination (handleListCustomFields a1 resp)) =
        (some (1, 25), some (some (JValue.num 1), some (JValue.num 25))) ∧
     (passedPagination (handleListCustomFields a2 resp),
        echoedPagination (handleListCustomFields a2 resp)) =
        (some (1, 25), some (some (JValue.num 1), some (JValue.num 25))) ∧
     (passedPagination (handleListCustomFields a3 resp),
        echoedPagination (handleListCustomFields a3 resp)) =
        (some (1, 100), some (some (JValue.num 1), some (JValue.num 100)))) ∧
    (passedPagination (handleListTags a3 resp) = some (1, s3) ∧
     clientListTagsQuery 1 s3 = (1, 100) ∧
     echoedPagination (handleListTags a3 resp) = some (none, none)) := by
  have hns3 : ¬ s3 < 1 := by omega
  have hnd : ¬ did < 1 := by omega
  refine ⟨⟨?_, ?_, ?_⟩, ⟨?_, ?_, ?_⟩, ⟨?_, ?_, ?_⟩, ⟨?_, ?_, ?_⟩,
      ⟨?_, ?_, ?_⟩, ⟨?_, ?_, ?_⟩, ?_, ?_, ?_⟩ <;>
    simp [handleSearchDocuments, handleFindSimilarDocuments,
      handleListCorrespondents, handleListDocumentTypes,
      handleListStoragePaths, handleListCustomFields, handleListTags,
      clientListTagsQuery, extractPage, extractPageSize,
      passedPagination, echoedPagination, List.lookup,
      h1p, h1s, h2p, hp2, h2s, hs2, h3p, h3s, hs3, hns3,
      hq1, hq2, hq3, hq, hd1, hd2, hd3, hnd]

/-- Witness for C6 (amended) at
`a1 = {query: "tax", document_id: 7}`,
`a2 = a1 with page = 0, page_size = 0`,
`a3 = a1 with page_size = 500` and an empty backing response: the
clamping handlers pass and echo `(1, 100)` for `a3`, while `list_tags`
passes the raw `500` and echoes nothing. -/
theorem listHandlers_pagination_witness :
    (passedPagination (handleListCorrespondents
        [("query", JValue.str "tax"), ("document_id", JValue.num 7),
         ("page_size", JValue.num 500)] ⟨0, none, none, JValue.arr []⟩),
      echoedPagination (handleListCorrespondents
        [("query", JValue.str "tax"), ("document_id", JValue.num 7),
         ("page_size", JValue.num 500)] ⟨0, none, none, JValue.arr []⟩)) =
      (some (1, 100), some (some (JValue.num 1), some (JValue.num 100))) ∧
    passedPagination (handleListTags
        [("query", JValue.str "tax"), ("document_id", JValue.num 7),
         ("page_size", JValue.num 500)] ⟨0, none, none, JValue.arr []⟩) = some (1, 500) ∧
    clientListTagsQuery 1 500 = (1, 100) ∧
    echoedPagination (handleListTags
        [("query", JValue.str "tax"), ("document_id", JValue.num 7),
         ("page_size", JValue.num 500)] ⟨0, none, none, JValue.arr []⟩) = some (none, none) :=
  have h := listHandlers_pagination
    [("query", JValue.str "tax"), ("document_id", JValue.num 7)]
    [("query", JValue.str "tax"), ("document_id", JValue.num 7),
     ("page", JValue.num 0), ("page_size", JValue.num 0)]
    [("query", JValue.str "tax"), ("document_id", JValue.num 7),
     ("page_size", JValue.num 500)]
    0 0 500 7 "tax" ⟨0, none, none, JValue.arr []⟩
    rfl rfl rfl (by decide) rfl (by decide) rfl rfl (by decide)
    rfl rfl rfl (by decide) rfl rfl rfl (by decide)
  ⟨h.2.2.1.2.2, h.2.2.2.2.2.2⟩

/-- C4 counterexample: `create_tag` called with only the required fields
`{name: "Urgent", color: "#ff0000"}` sends a JSON payload that is not
"exactly those fields": the marshalled `paperless.Tag` struct carries,
among others, the unsupplied keys `slug` (as the empty string),
`matching_algorithm` (as 0) and `id` (as 0), because those fields lack
`omitempty` tags. -/
theorem createTag_payload_counterexample :
    handleCreateTag [("name", JValue.str "Urgent"), ("color", JValue.str "#ff0000")] =
      Except.ok (ClientCall.createTag
        ⟨0, "", "Urgent", "#ff0000", "", 0, false, false, 0, 0, false⟩) ∧
    (GoTag.marshal ⟨0, "", "Urgent", "#ff0000", "", 0, false, false, 0, 0, false⟩).lookup
        "slug" = some (JValue.str "") ∧
    (GoTag.marshal ⟨0, "", "Urgent", "#ff0000", "", 0, false, false, 0, 0, false⟩).lookup
        "matching_algorithm" = some (JValue.num 0) ∧
    (GoTag.marshal ⟨0, "", "Urgent", "#ff0000", "", 0, false, false, 0, 0, false⟩).lookup
        "id" = some (JValue.num 0) :=
  ⟨rfl, rfl, rfl, rfl⟩

/-- C4 as amended: omitting a required field fails validation before any
backing-API call (bag `a` has every required field absent), and a call
supplying only the required fields populates only those fields on the
outgoing struct — but the serialized JSON payload consists of the
supplied fields together with every other non-`omitempty` struct field
at its zero/null value (only `omitempty` fields such as `owner`,
`user_can_change`, and for documents `content`/`notes`/`custom_fields`,
are omitted), as the explicit payload listings show. -/
theorem createHandlers_payload (a : Args) (title name color pathStr dataType : String)
    (htitle : title ≠ "") (hname : name ≠ "") (hcolor : color ≠ "")
    (hpath : pathStr ≠ "") (hdt : dataType ≠ "")
    (ha1 : a.getStr? "title" = none) (ha2 : a.getStr? "name" = none) :
    (handleCreateDocument a =
        Except.error "title parameter is required and must be a non-empty string" ∧
     handleCreateCorrespondent a =
        Except.error "name parameter is required and must be a non-empty string" ∧
     handleCreateDocumentType a =
        Except.error "name parameter is required and must be a non-empty string" ∧
     handleCreateTag a =
        Except.error "name is required and must be a non-empty string" ∧
     handleCreateStoragePath a =
        Except.error "name parameter is required and must be a non-empty string" ∧
     handleCreateCustomField a =
        Except.error "name parameter is required and must be a non-empty string") ∧
    (handleCreateDocument [("title", JValue.str title)] =
        Except.ok (ClientCall.createDocument
          ⟨0, none, none, none, title, "", none, none, "", none, none, none, "",
           none, 0, false, [], []⟩) ∧
     GoDocument.marshal
          ⟨0, none, none, none, title, "", none, none, "", none, none, none, "",
           none, 0, false, [], []⟩ =
        [("id", JValue.num 0), ("correspondent", JValue.null),
         ("document_type", JValue.null), ("storage_path", JValue.null),
         ("title", JValue.str title), ("tags", JValue.null),
         ("created", JValue.null), ("created_date", JValue.str ""),
         ("modified", JValue.null), ("added", JValue.null),
         ("archive_serial_number", JValue.null),
         ("original_file_name", JValue.str ""),
         ("archived_file_name", JValue.null)]) ∧
    (handleCreateCorrespondent [("name", JValue.str name)] =
        Except.ok (ClientCall.createCorrespondent
          ⟨0, "", name, "", 0, false, 0, none, 0, false⟩) ∧
     GoCorrespondent.marshal ⟨0, "", name, "", 0, false, 0, none, 0, false⟩ =
        [("id", JValue.num 0), ("slug", JValue.str ""), ("name", JValue.str name),
         ("match", JValue.str ""), ("matching_algorithm", JValue.num 0),
         ("is_insensitive", JValue.bool false), ("document_count", JValue.num 0),
         ("last_correspondence", JValue.null)]) ∧
    (handleCreateDocumentType [("name", JValue.str name)] =
        Except.ok (ClientCall.createDocumentType
          ⟨0, "", name, "", 0, false, 0, 0, false⟩) ∧
     GoDocumentType.marshal ⟨0, "", name, "", 0, false, 0, 0, false⟩ =
        [("id", JValue.num 0), ("slug", JValue.str ""), ("name", JValue.str name),
         ("match", JValue.str ""), ("matching_algorithm", JValue.num 0),
         ("is_insensitive", JValue.bool false), ("document_count", JValue.num 0)]) ∧
    (handleCreateTag [("name", JValue.str name), ("color", JValue.str color)] =
        Except.ok (ClientCall.createTag
          ⟨0, "", name, color, "", 0, false, false, 0, 0, false⟩) ∧
     GoTag.marshal ⟨0, "", name, color, "", 0, false, false, 0, 0, false⟩ =
        [("id", JValue.num 0), ("slug", JValue.str ""), ("name", JValue.str name),
         ("color", JValue.str color), ("match", JValue.str ""),
         ("matching_algorithm", JValue.num 0), ("is_insensitive", JValue.bool false),
         ("is_inbox_tag", JValue.bool false), ("document_count", JValue.num 0)]) ∧
    (handleCreateStoragePath [("name", JValue.str name), ("path", JValue.str pathStr)] =
        Except.ok (ClientCall.createStoragePath
          ⟨0, "", name, pathStr, "", 0, false, 0, 0, false⟩) ∧
     GoStoragePath.marshal ⟨0, "", name, pathStr, "", 0, false, 0, 0, false⟩ =
        [("id", JValue.num 0), ("slug", JValue.str ""), ("name", JValue.str name),
         ("path", JValue.str pathStr), ("match", JValue.str ""),
         ("matching_algorithm", JValue.num 0), ("is_insensitive", JValue.bool false),
         ("document_count", JValue.num 0)]) ∧
    (handleCreateCustomField
        [("name", JValue.str name), ("data_type", JValue.str dataType)] =
        Except.ok (ClientCall.createCustomField ⟨0, name, dataType⟩) ∧
     GoCustomField.marshal ⟨0, name, dataType⟩ =
        [("id", JValue.num 0), ("name", JValue.str name),
         ("data_type", JValue.str dataType)]) := by
  constructor
  · refine ⟨?_, ?_, ?_, ?_, ?_, ?_⟩ <;>
      simp [handleCreateDocument, handleCreateCorrespondent,
        handleCreateDocumentType, handleCreateTag, handleCreateStoragePath,
        handleCreateCustomField, ha1, ha2]
  · refine ⟨⟨?_, ?_⟩, ⟨?_, ?_⟩, ⟨?_, ?_⟩, ⟨?_, ?_⟩, ⟨?_, ?_⟩, ⟨?_, ?_⟩⟩ <;>
      simp [handleCreateDocument, handleCreateCorrespondent,
        handleCreateDocumentType, handleCreateTag, handleCreateStoragePath,
        handleCreateCustomField, GoDocument.marshal, GoCorrespondent.marshal,
        GoDocumentType.marshal, GoTag.marshal, GoStoragePath.marshal,
        GoCustomField.marshal, Args.getStr?, Args.getNum?, Args.getBool?,
        Args.getArr?, List.lookup, jOptNum, jOptStr,
        htitle, hname, hcolor, hpath, hdt]

/-- Witness for C4 (amended) at `a = {}` and concrete required fields
(`title "Invoice"`, `name "Urgent"`, `color "#ff0000"`,
`path "/archive"`, `data_type "string"`). -/
theorem createHandlers_payload_witness :
    handleCreateTag [("name", JValue.str "Urgent"), ("color", JValue.str "#ff0000")] =
      Except.ok (ClientCall.createTag
        ⟨0, "", "Urgent", "#ff0000", "", 0, false, false, 0, 0, false⟩) ∧
    GoTag.marshal ⟨0, "", "Urgent", "#ff0000", "", 0, false, false, 0, 0, false⟩ =
      [("id", JValue.num 0), ("slug", JValue.str ""), ("name", JValue.str "Urgent"),
       ("color", JValue.str "#ff0000"), ("match", JValue.str ""),
       ("matching_algorithm", JValue.num 0), ("is_insensitive", JValue.bool false),
       ("is_inbox_tag", JValue.bool false), ("document_count", JValue.num 0)] ∧
    handleCreateDocument [] =
      Except.error "title parameter is required and must be a non-empty string" :=
  have h := createHandlers_payload [] "Invoice" "Urgent" "#ff0000" "/archive" "string"
    (by decide) (by decide) (by decide) (by decide) (by decide) rfl rfl
  ⟨h.2.2.2.2.1.1, h.2.2.2.2.1.2, h.1.1⟩

/-- C5 counterexample: `update_tag` with `{tag_id: 1, foo: "bar"}` — a
non-ID key is present in the bag — does not forward `foo` verbatim; the
handler recognizes none of the supplied non-ID keys, so it rejects the
call as an empty update, contradicting the claim that every Update-shaped
handler forwards every non-ID key. -/
theorem updateTag_unrecognized_key_counterexample :
    handleUpdateTag [("tag_id", JValue.num 1), ("foo", JValue.str "bar")] =
      Except.error "at least one field must be provided for update" := rfl

/-- A conditional update-map entry only ever carries its own key. -/
theorem optEntry_key_mem {β : Type} (key : String) (f : β → JValue)
    (o : Option β) (k : String) (v : JValue)
    (h : (k, v) ∈ optEntry key f o) : k = key := by
  cases o <;> simp_all [optEntry]

/-- A non-empty-string update-map entry only ever carries its own key. -/
theorem nonEmptyStrEntry_key_mem (key : String) (o : Option String)
    (k : String) (v : JValue)
    (h : (k, v) ∈ nonEmptyStrEntry key o) : k = key := by
  cases o with
  | none => simp [nonEmptyStrEntry] at h
  | some s =>
    simp only [nonEmptyStrEntry] at h
    split_ifs at h <;> simp_all

/-- Every entry of the `update_tag` update map carries one of the six
recognized keys. -/
theorem tagUpdates_key_mem (args : Args) (k : String) (v : JValue)
    (h : (k, v) ∈ tagUpdates args) :
    k = "name" ∨ k = "color" ∨ k = "match" ∨ k = "matching_algorithm" ∨
      k = "is_insensitive" ∨ k = "is_inbox_tag" := by
  unfold tagUpdates at h
  simp only [List.mem_append] at h
  rcases h with ((((h | h) | h) | h) | h) | h
  · exact Or.inl (optEntry_key_mem _ _ _ _ _ h)
  · exact Or.inr (Or.inl (optEntry_key_mem _ _ _ _ _ h))
  · exact Or.inr (Or.inr (Or.inl (optEntry_key_mem _ _ _ _ _ h)))
  · exact Or.inr (Or.inr (Or.inr (Or.inl (optEntry_key_mem _ _ _ _ _ h))))
  · exact Or.inr (Or.inr (Or.inr (Or.inr (Or.inl (optEntry_key_mem _ _ _ _ _ h)))))
  · exact Or.inr (Or.inr (Or.inr (Or.inr (Or.inr (optEntry_key_mem _ _ _ _ _ h)))))

/-- Every entry of the `update_custom_field` update map carries `name` or
`data_type`. -/
theorem customFieldUpdates_key_mem (args : Args) (k : String) (v : JValue)
    (h : (k, v) ∈ customFieldUpdates args) :
    k = "name" ∨ k = "data_type" := by
  unfold customFieldUpdates at h
  simp only [List.mem_append] at h
  rcases h with h | h
  · exact Or.inl (nonEmptyStrEntry_key_mem _ _ _ _ h)
  · exact Or.inr (nonEmptyStrEntry_key_mem _ _ _ _ h)

/-- Inversion for `update_tag`: a successful call forwards exactly the
recognized-key selection. -/
theorem handleUpdateTag_ok_inv (args : Args) (tid : Int) (upd : Args)
    (h : handleUpdateTag args = Except.ok (ClientCall.updateTag tid upd)) :
    upd = tagUpdates args := by
  unfold handleUpdateTag at h
  split at h
  · simp at h
  · dsimp only at h
    split at h
    · simp at h
    · injection h with h2
      injection h2 with ha hb
      exact hb.symm

/-- Inversion for `update_custom_field`: a successful call forwards
exactly the recognized-key selection. -/
theorem handleUpdateCustomField_ok_inv (args : Args) (fid : Int) (upd : Args)
    (h : handleUpdateCustomField args = Except.ok (ClientCall.updateCustomField fid upd)) :
    upd = customFieldUpdates args := by
  unfold handleUpdateCustomField at h
  split at h
  · simp at h
  · split at h
    · simp at h
    · dsimp only at h
      split at h
      · simp at h
      · injection h with h2
        injection h2 with ha hb
        exact hb.symm

/-- C5 as amended: `update_document`, `update_correspondent`,
`update_document_type` and `update_storage_path` forward every key of the
argument bag other than their ID key verbatim as the partial-update
payload, and reject an ID-only bag as an empty update; `update_tag` and
`update_custom_field`, however, forward only their recognized keys
(`name`/`color`/`match`/`matching_algorithm`/`is_insensitive`/`is_inbox_tag`
for tags, non-empty `name`/`data_type` for custom fields), drop every
other key, and reject the call when no recognized key survives — so a
bag holding only unrecognized non-ID keys is rejected rather than
forwarded.  Bag `a` carries all four verbatim-shape ID keys with value
`n` plus the extra entry `(k, v)`. -/
theorem updateHandlers_forwarding (a c d : Args) (n tid fid : Int)
    (k k2 k3 : String) (v v2 v3 : JValue) (upd upd2 : Args)
    (hn : 1 ≤ n)
    (h1 : a.getNum? "document_id" = some n)
    (h2 : a.getNum? "correspondent_id" = some n)
    (h3 : a.getNum? "document_type_id" = some n)
    (h4 : a.getNum? "storage_path_id" = some n)
    (hk : (k, v) ∈ a)
    (hk1 : k ≠ "document_id") (hk2 : k ≠ "correspondent_id")
    (hk3 : k ≠ "document_type_id") (hk4 : k ≠ "storage_path_id")
    (hcall : handleUpdateTag c = Except.ok (ClientCall.updateTag tid upd))
    (hmem : (k2, v2) ∈ upd)
    (hcall2 : handleUpdateCustomField d = Except.ok (ClientCall.updateCustomField fid upd2))
    (hmem2 : (k3, v3) ∈ upd2) :
    (handleUpdateDocument a =
        Except.ok (ClientCall.updateDocument n (a.filter (fun kv => kv.1 ≠ "document_id"))) ∧
     (k, v) ∈ a.filter (fun kv => kv.1 ≠ "document_id") ∧
     handleUpdateCorrespondent a =
        Except.ok (ClientCall.updateCorrespondent n (a.filter (fun kv => kv.1 ≠ "correspondent_id"))) ∧
     (k, v) ∈ a.filter (fun kv => kv.1 ≠ "correspondent_id") ∧
     handleUpdateDocumentType a =
        Except.ok (ClientCall.updateDocumentType n (a.filter (fun kv => kv.1 ≠ "document_type_id"))) ∧
     (k, v) ∈ a.filter (fun kv => kv.1 ≠ "document_type_id") ∧
     handleUpdateStoragePath a =
        Except.ok (ClientCall.updateStoragePath n (a.filter (fun kv => kv.1 ≠ "storage_path_id"))) ∧
     (k, v) ∈ a.filter (fun kv => kv.1 ≠ "storage_path_id")) ∧
    (handleUpdateDocument [("document_id", JValue.num n)] =
        Except.error "at least one field to update must be provided" ∧
     handleUpdateCorrespondent [("correspondent_id", JValue.num n)] =
        Except.error "at least one field to update must be provided" ∧
     handleUpdateDocumentType [("document_type_id", JValue.num n)] =
        Except.error "at least one field to update must be provided" ∧
     handleUpdateStoragePath [("storage_path_id", JValue.num n)] =
        Except.error "at least one field to update must be provided" ∧
     handleUpdateTag [("tag_id", JValue.num n)] =
        Except.error "at least one field must be provided for update" ∧
     handleUpdateCustomField [("field_id", JValue.num n)] =
        Except.error "at least one field to update must be provided" ∧
     handleUpdateCustomField [("field_id", JValue.num n), ("name", JValue.str "")] =
        Except.error "at least one field to update must be provided") ∧
    ((k2 = "name" ∨ k2 = "color" ∨ k2 = "match" ∨ k2 = "matching_algorithm" ∨
        k2 = "is_insensitive" ∨ k2 = "is_inbox_tag") ∧
     (k3 = "name" ∨ k3 = "data_type")) := by
  have hnlt : ¬ n < 1 := by omega
  have hm1 : (k, v) ∈ a.filter (fun kv => kv.1 ≠ "document_id") :=
    List.mem_filter.mpr ⟨hk, by simp [hk1]⟩
  have hm2 : (k, v) ∈ a.filter (fun kv => kv.1 ≠ "correspondent_id") :=
    List.mem_filter.mpr ⟨hk, by simp [hk2]⟩
  have hm3 : (k, v) ∈ a.filter (fun kv => kv.1 ≠ "document_type_id") :=
    List.mem_filter.mpr ⟨hk, by simp [hk3]⟩
  have hm4 : (k, v) ∈ a.filter (fun kv => kv.1 ≠ "storage_path_id") :=
    List.mem_filter.mpr ⟨hk, by simp [hk4]⟩
  refine ⟨⟨?_, hm1, ?_, hm2, ?_, hm3, ?_, hm4⟩,
      ⟨?_, ?_, ?_, ?_, ?_, ?_, ?_⟩, ?_, ?_⟩
  · simp [handleUpdateDocument, h1, hnlt, List.isEmpty_iff,
      List.ne_nil_of_mem hm1]
    exact ⟨k, ⟨v, hk⟩, hk1⟩
  · simp [handleUpdateCorrespondent, h2, hnlt, List.isEmpty_iff,
      List.ne_nil_of_mem hm2]
    exact ⟨k, ⟨v, hk⟩, hk2⟩
  · simp [handleUpdateDocumentType, h3, hnlt, List.isEmpty_iff,
      List.ne_nil_of_mem hm3]
    exact ⟨k, ⟨v, hk⟩, hk3⟩
  · simp [handleUpdateStoragePath, h4, hnlt, List.isEmpty_iff,
      List.ne_nil_of_mem hm4]
    exact ⟨k, ⟨v, hk⟩, hk4⟩
  · simp [handleUpdateDocument, Args.getNum?, List.lookup, hnlt]
  · simp [handleUpdateCorrespondent, Args.getNum?, List.lookup, hnlt]
  · simp [handleUpdateDocumentType, Args.getNum?, List.lookup, hnlt]
  · simp [handleUpdateStoragePath, Args.getNum?, List.lookup, hnlt]
  · simp [handleUpdateTag, tagUpdates, optEntry, Args.getNum?, Args.getStr?,
      Args.getBool?, List.lookup]
  · simp [handleUpdateCustomField, customFieldUpdates, nonEmptyStrEntry,
      Args.getNum?, Args.getStr?, List.lookup, hnlt]
  · simp [handleUpdateCustomField, customFieldUpdates, nonEmptyStrEntry,
      Args.getNum?, Args.getStr?, List.lookup, hnlt]
  · exact tagUpdates_key_mem c k2 v2 (handleUpdateTag_ok_inv c tid upd hcall ▸ hmem)
  · exact customFieldUpdates_key_mem d k3 v3
      (handleUpdateCustomField_ok_inv d fid upd2 hcall2 ▸ hmem2)

/-- Witness for C5 (amended): `update_document` on
`{document_id: 5, correspondent_id: 5, document_type_id: 5,
storage_path_id: 5, title: "X"}` forwards every non-ID key (including
the other resources' ID keys) verbatim; `update_tag` on an ID-only bag
is rejected; the keys forwarded for
`update_tag {tag_id: 1, name: "X"}` and
`update_custom_field {field_id: 2, data_type: "string"}` are recognized
ones. -/
theorem updateHandlers_forwarding_witness :
    handleUpdateDocument
        [("document_id", JValue.num 5), ("correspondent_id", JValue.num 5),
         ("document_type_id", JValue.num 5), ("storage_path_id", JValue.num 5),
         ("title", JValue.str "X")] =
      Except.ok (ClientCall.updateDocument 5
        [("correspondent_id", JValue.num 5), ("document_type_id", JValue.num 5),
         ("storage_path_id", JValue.num 5), ("title", JValue.str "X")]) ∧
    handleUpdateTag [("tag_id", JValue.num 5)] =
      Except.error "at least one field must be provided for update" ∧
    ("name" = "name" ∨ "name" = "color" ∨ "name" = "match" ∨
      "name" = "matching_algorithm" ∨ "name" = "is_insensitive" ∨
      "name" = "is_inbox_tag") ∧
    ("data_type" = "name" ∨ "data_type" = "data_type") :=
  have h := updateHandlers_forwarding
    [("document_id", JValue.num 5), ("correspondent_id", JValue.num 5),
     ("document_type_id", JValue.num 5), ("storage_path_id", JValue.num 5),
     ("title", JValue.str "X")]
    [("tag_id", JValue.num 1), ("name", JValue.str "X")]
    [("field_id", JValue.num 2), ("data_type", JValue.str "string")]
    5 1 2 "title" "name" "data_type" (JValue.str "X") (JValue.str "X")
    (JValue.str "string") [("name", JValue.str "X")] [("data_type", JValue.str "string")]
    (by decide) rfl rfl rfl rfl (by simp) (by decide) (by decide) (by decide)
    (by decide) rfl (by simp) rfl (by simp)
  ⟨h.1.1, h.2.1.2.2.2.2.1, h.2.2.1, h.2.2.2⟩

/-- C7 (against the spec-modelled handler, the source body being absent):
`bulk_edit_documents` requires `document_ids` to be a non-empty array of
positive integers — a missing array, an empty array, and an array with a
non-positive entry are each rejected before any backing-API call — and a
valid call issues exactly one batched mutation call; in particular the
spec's end-to-end scenario `{document_ids: [1,2,3], add_tags: [5]}`
produces the single call carrying all three IDs and the tag-addition
instruction, not one call per document. -/
theorem bulkEditDocuments_spec (a b : Args) (calls : List ClientCall)
    (ha : a.getArr? "document_ids" = none)
    (hb : handleBulkEditDocuments b = Except.ok calls) :
    handleBulkEditDocuments a =
      Except.error "document_ids parameter is required and must be an array of integers" ∧
    calls.length = 1 ∧
    handleBulkEditDocuments [("document_ids", JValue.arr [])] =
      Except.error "document_ids must be a non-empty array" ∧
    handleBulkEditDocuments
        [("document_ids", JValue.arr [JValue.num 1, JValue.num 0])] =
      Except.error "document_ids must contain only positive integers" ∧
    handleBulkEditDocuments
        [("document_ids", JValue.arr [JValue.num 1, JValue.num 2, JValue.num 3]),
         ("add_tags", JValue.arr [JValue.num 5])] =
      Except.ok [ClientCall.bulkEditDocuments [1, 2, 3]
        [("add_tags", JValue.arr [JValue.num 5])]] := by
  refine ⟨?_, ?_, rfl, rfl, rfl⟩
  · simp [handleBulkEditDocuments, ha]
  · unfold handleBulkEditDocuments at hb
    split at hb
    · simp at hb
    · split at hb
      · simp at hb
      · split at hb
        · simp at hb
        · injection hb with hcalls
          simp [← hcalls]

/-- Witness for C7 at `a = {}` and the spec's end-to-end scenario
`b = {document_ids: [1,2,3], add_tags: [5]}`. -/
theorem bulkEditDocuments_spec_witness :
    handleBulkEditDocuments [] =
      Except.error "document_ids parameter is required and must be an array of integers" ∧
    ([ClientCall.bulkEditDocuments [1, 2, 3]
        [("add_tags", JValue.arr [JValue.num 5])]] : List ClientCall).length = 1 ∧
    handleBulkEditDocuments
        [("document_ids", JValue.arr [JValue.num 1, JValue.num 2, JValue.num 3]),
         ("add_tags", JValue.arr [JValue.num 5])] =
      Except.ok [ClientCall.bulkEditDocuments [1, 2, 3]
        [("add_tags", JValue.arr [JValue.num 5])]] :=
  have h := bulkEditDocuments_spec []
    [("document_ids", JValue.arr [JValue.num 1, JValue.num 2, JValue.num 3]),
     ("add_tags", JValue.arr [JValue.num 5])]
    [ClientCall.bulkEditDocuments [1, 2, 3] [("add_tags", JValue.arr [JValue.num 5])]]
    rfl rfl
  ⟨h.1, h.2.1, h.2.2.2.2⟩
